import Mathlib

/-!
Shallow embedding of the assessment evaluation engine of `src/OOP2N.py`
(classes `Question`, `Test`, `Student`, `TestAttempt`, `TestingSystem`).

Modelling conventions:
* Python numbers (scores, percentages, thresholds, timestamps) are modelled
  as rationals `ℚ`; timestamps are seconds since an arbitrary epoch, so that
  `datetime` subtraction `total_seconds()` is plain subtraction.
* Python `dict`s (`answers`, `scores`) are association lists in insertion
  order; a dict key is a `PyKey`, which is either an `int` or a `str`,
  because JSON serialization turns `int` keys into `str` keys and the two
  kinds can coexist in a loaded state.
* Object references (`attempt.student`, `attempt.test`) are modelled by ids
  resolved against the `TestingSystem` lists; a `Student`'s
  `test_attempts` list stores attempt ids.
* `datetime.now()` becomes an explicit `now : ℚ` argument to the operations
  that read the clock.
* File persistence (`save_data` writing JSON, `load_data` reading it) is
  modelled by the pure serialization value `SaveData` together with the pure
  functions `TestingSystem.save_data` and `load_data`.
-/

namespace OOP2N

/-- Status enum `TestStatus` of `OOP2N.py`. -/
inductive TestStatus
  | notStarted
  | inProgress
  | completed
  | evaluated
deriving DecidableEq, Repr

/-- Question-type enum `QuestionType` of `OOP2N.py`. -/
inductive QuestionType
  | singleChoice
  | multipleChoice
  | textAnswer
deriving DecidableEq, Repr

/-- A Python dict key as it occurs in an attempt's `answers`/`scores` dicts:
the engine inserts `int` question ids, while JSON deserialization produces
`str` keys. -/
inductive PyKey
  | int (n : Nat)
  | str (s : String)
deriving DecidableEq, Repr

/-- Class `Student` (`test_attempts` holds attempt ids, standing for the
Python list of attempt object references). -/
structure Student where
  student_id : Nat
  full_name : String
  group : String
  email : String
  test_attempts : List Nat
deriving DecidableEq, Repr

/-- `Student.add_attempt`: appends an attempt (reference) to the student's
list. -/
def Student.add_attempt (s : Student) (attempt_id : Nat) : Student :=
  { s with test_attempts := s.test_attempts ++ [attempt_id] }

/-- Class `Question`. -/
structure Question where
  question_id : Nat
  text : String
  question_type : QuestionType
  options : List String
  correct_answers : List String
  max_points : ℚ
  is_active : Bool
deriving DecidableEq, Repr

/-- `Question.__init__` with its defaults (`is_active = True`). -/
def Question.mk' (question_id : Nat) (text : String) (question_type : QuestionType)
    (options : List String) (correct_answers : List String) (max_points : ℚ) : Question :=
  { question_id := question_id, text := text, question_type := question_type,
    options := options, correct_answers := correct_answers,
    max_points := max_points, is_active := true }

/-- `Question.toggle_active`. -/
def Question.toggle_active (q : Question) : Question :=
  { q with is_active := !q.is_active }

/-- `Question.check_answer`: single choice tests membership of the first
submitted value; multiple choice tests set equality (mutual containment);
text answers always report true. -/
def Question.check_answer (q : Question) (user_answers : List String) : Bool :=
  match q.question_type with
  | .singleChoice =>
      match user_answers with
      | [] => false
      | a :: _ => q.correct_answers.contains a
  | .multipleChoice =>
      user_answers.all (fun a => q.correct_answers.contains a) &&
        q.correct_answers.all (fun a => user_answers.contains a)
  | .textAnswer => true

/-- Class `Test`. -/
structure Test where
  test_id : Nat
  title : String
  subject : String
  time_limit : Nat
  questions : List Question
  is_active : Bool
  passing_score : ℚ
deriving DecidableEq, Repr

/-- `Test.__init__` (`is_active = True`, `passing_score = 60`). -/
def Test.mk' (test_id : Nat) (title : String) (subject : String) (time_limit : Nat) : Test :=
  { test_id := test_id, title := title, subject := subject, time_limit := time_limit,
    questions := [], is_active := true, passing_score := 60 }

/-- `Test.add_question`. -/
def Test.add_question (t : Test) (q : Question) : Test :=
  { t with questions := t.questions ++ [q] }

/-- `Test.remove_question`: keeps the questions whose id differs. -/
def Test.remove_question (t : Test) (question_id : Nat) : Test :=
  { t with questions := t.questions.filter (fun q => q.question_id != question_id) }

/-- `Test.get_active_questions`. -/
def Test.get_active_questions (t : Test) : List Question :=
  t.questions.filter (fun q => q.is_active)

/-- `Test.get_max_score`: sum of `max_points` over the active questions,
recomputed from the current question list on every call. -/
def Test.get_max_score (t : Test) : ℚ :=
  (t.get_active_questions.map (fun q => q.max_points)).sum

/-- `Test.toggle_active`. -/
def Test.toggle_active (t : Test) : Test :=
  { t with is_active := !t.is_active }

/-- Python dict assignment `d[k] = v`: replace the value if the key is
present (keeping its position), otherwise append the binding. -/
def updateAssoc {α : Type} (m : List (PyKey × α)) (k : PyKey) (v : α) : List (PyKey × α) :=
  if m.any (fun p => p.1 == k) then
    m.map (fun p => if p.1 == k then (k, v) else p)
  else
    m ++ [(k, v)]

/-- Python `sum(d.values())` for an association-list dict. -/
def dictValuesSum (m : List (PyKey × ℚ)) : ℚ :=
  (m.map (fun p => p.2)).sum

/-- Class `TestAttempt`; `student_id`/`test_id` stand for the stored object
references. -/
structure TestAttempt where
  attempt_id : Nat
  student_id : Nat
  test_id : Nat
  start_time : ℚ
  end_time : Option ℚ
  status : TestStatus
  answers : List (PyKey × List String)
  scores : List (PyKey × ℚ)
  final_score : ℚ
  percentage : ℚ
  is_passed : Bool
deriving DecidableEq, Repr

/-- `TestAttempt.__init__` (status `NOT_STARTED`, `start_time = now`, empty
maps, zero outcome). -/
def TestAttempt.mk' (attempt_id student_id test_id : Nat) (now : ℚ) : TestAttempt :=
  { attempt_id := attempt_id, student_id := student_id, test_id := test_id,
    start_time := now, end_time := none, status := .notStarted,
    answers := [], scores := [], final_score := 0, percentage := 0, is_passed := false }

/-- `TestAttempt.start_attempt`: unconditionally sets `IN_PROGRESS` and
resets the start timestamp. -/
def TestAttempt.start_attempt (now : ℚ) (a : TestAttempt) : TestAttempt :=
  { a with status := .inProgress, start_time := now }

/-- `TestAttempt.submit_answer`: records the raw answers under the question
id, then auto-scores single/multiple-choice questions found in the test's
full question list (active or not): full `max_points` on a correct answer,
`0` otherwise. The attempt's test (`self.test`) is passed explicitly. -/
def TestAttempt.submit_answer (t : Test) (a : TestAttempt) (question_id : Nat)
    (answers : List String) : TestAttempt :=
  let a1 := { a with answers := updateAssoc a.answers (.int question_id) answers }
  match t.questions.find? (fun q => q.question_id == question_id) with
  | some q =>
      if q.question_type = .singleChoice ∨ q.question_type = .multipleChoice then
        if q.check_answer answers then
          { a1 with scores := updateAssoc a1.scores (.int question_id) q.max_points }
        else
          { a1 with scores := updateAssoc a1.scores (.int question_id) 0 }
      else a1
  | none => a1

/-- `TestAttempt.calculate_score`: `final_score = sum(scores.values())`,
`percentage = final_score / test.get_max_score() * 100` when the max score
is positive and `0` otherwise, `is_passed = percentage >= passing_score`. -/
def TestAttempt.calculate_score (t : Test) (a : TestAttempt) : TestAttempt :=
  let total_score := dictValuesSum a.scores
  let max_score := t.get_max_score
  { a with
    final_score := total_score,
    percentage := if max_score > 0 then total_score / max_score * 100 else 0,
    is_passed := decide (t.passing_score ≤ (if max_score > 0 then total_score / max_score * 100 else 0)) }

/-- `TestAttempt.finish_attempt`: unconditionally sets `COMPLETED`, stamps
the end time and recomputes the score. -/
def TestAttempt.finish_attempt (now : ℚ) (t : Test) (a : TestAttempt) : TestAttempt :=
  TestAttempt.calculate_score t { a with status := .completed, end_time := some now }

/-- `TestAttempt.evaluate_attempt`: unconditionally sets `EVALUATED`, merges
the optional manual scores into the score dict, recomputes the score. -/
def TestAttempt.evaluate_attempt (manual_scores : Option (List (PyKey × ℚ)))
    (t : Test) (a : TestAttempt) : TestAttempt :=
  let a1 := { a with status := TestStatus.evaluated }
  let a2 :=
    match manual_scores with
    | some ms => { a1 with scores := ms.foldl (fun d p => updateAssoc d p.1 p.2) a1.scores }
    | none => a1
  TestAttempt.calculate_score t a2

/-- `TestAttempt.get_duration`: `(end - start)` in minutes when the end
timestamp is set, else `0`. -/
def TestAttempt.get_duration (a : TestAttempt) : ℚ :=
  match a.end_time with
  | some e => (e - a.start_time) / 60
  | none => 0

/-- Class `TestingSystem` (the registry): entity lists plus id counters. -/
structure TestingSystem where
  students : List Student
  tests : List Test
  attempts : List TestAttempt
  next_student_id : Nat
  next_test_id : Nat
  next_attempt_id : Nat
  next_question_id : Nat
deriving DecidableEq, Repr

/-- `TestingSystem.find_student_by_id`: first student with the id, else
absent. -/
def TestingSystem.find_student_by_id (s : TestingSystem) (student_id : Nat) : Option Student :=
  s.students.find? (fun st => st.student_id == student_id)

/-- `TestingSystem.find_test_by_id`: first test with the id, else absent. -/
def TestingSystem.find_test_by_id (s : TestingSystem) (test_id : Nat) : Option Test :=
  s.tests.find? (fun t => t.test_id == test_id)

/-- In-place mutation of the first list element satisfying `p` (a Python
`find`-then-mutate on a shared object). -/
def updateFirst {α : Type} (p : α → Bool) (f : α → α) : List α → List α
  | [] => []
  | x :: xs => if p x then f x :: xs else x :: updateFirst p f xs

/-- `TestingSystem.delete_test`: refused (state unchanged, `false`) when the
test is absent or some attempt references it; otherwise removes the found
test and reports `true`. -/
def TestingSystem.delete_test (s : TestingSystem) (test_id : Nat) : TestingSystem × Bool :=
  match s.find_test_by_id test_id with
  | some _ =>
      if s.attempts.any (fun a => a.test_id == test_id) then (s, false)
      else ({ s with tests := s.tests.eraseP (fun t => t.test_id == test_id) }, true)
  | none => (s, false)

/-- `TestingSystem.delete_question`: delegates to `Test.remove_question` on
the found test (no attempt guard); `false` when the test is absent. -/
def TestingSystem.delete_question (s : TestingSystem) (test_id question_id : Nat) :
    TestingSystem × Bool :=
  match s.find_test_by_id test_id with
  | some _ =>
      let tests1 := updateFirst (fun t => t.test_id == test_id)
        (fun t => t.remove_question question_id) s.tests
      ({ s with tests := tests1 }, true)
  | none => (s, false)

/-- `TestingSystem.create_attempt`: absent when either id does not resolve
or the student already has at least 3 attempts against this test; otherwise
builds a fresh attempt with the next id, appends it to the registry's list
and the student's list, and bumps the counter. -/
def TestingSystem.create_attempt (s : TestingSystem) (student_id test_id : Nat) (now : ℚ) :
    TestingSystem × Option TestAttempt :=
  match s.find_student_by_id student_id, s.find_test_by_id test_id with
  | some _, some _ =>
      let student_attempts := s.attempts.filter
        (fun a => a.student_id == student_id && a.test_id == test_id)
      if 3 ≤ student_attempts.length then (s, none)
      else
        let attempt := TestAttempt.mk' s.next_attempt_id student_id test_id now
        ({ s with
            attempts := s.attempts ++ [attempt],
            students := updateFirst (fun st => st.student_id == student_id)
              (fun st => st.add_attempt attempt.attempt_id) s.students,
            next_attempt_id := s.next_attempt_id + 1 }, some attempt)
  | _, _ => (s, none)

/-- Result record of `TestingSystem.get_test_statistics`. -/
structure TestStats where
  total_attempts : Nat
  passed_attempts : Nat
  success_rate : ℚ
  avg_score : ℚ
  avg_time : ℚ
deriving DecidableEq, Repr

/-- `TestingSystem.get_test_statistics`: over the attempts of this test in
status `EVALUATED` only; absent when there are none; otherwise counts,
pass rate, mean percentage and mean duration (simple arithmetic means). -/
def TestingSystem.get_test_statistics (s : TestingSystem) (test_id : Nat) : Option TestStats :=
  let test_attempts := s.attempts.filter
    (fun a => a.test_id == test_id && a.status == TestStatus.evaluated)
  if test_attempts.isEmpty then none
  else
    let total_attempts := test_attempts.length
    let passed_attempts := (test_attempts.filter (fun a => a.is_passed)).length
    some
      { total_attempts := total_attempts,
        passed_attempts := passed_attempts,
        success_rate := (passed_attempts : ℚ) / (total_attempts : ℚ) * 100,
        avg_score := (test_attempts.map (fun a => a.percentage)).sum / (total_attempts : ℚ),
        avg_time := (test_attempts.map (fun a => a.get_duration)).sum / (total_attempts : ℚ) }

/-- Serialized form of a `Student` (`Student.to_dict`: the `test_attempts`
list is not serialized). -/
structure StudentData where
  student_id : Nat
  full_name : String
  group : String
  email : String
deriving DecidableEq, Repr

/-- `Student.to_dict`. -/
def Student.to_dict (s : Student) : StudentData :=
  { student_id := s.student_id, full_name := s.full_name, group := s.group, email := s.email }

/-- `Student.from_dict`: rebuilds the student with an empty attempt list. -/
def Student.from_dict (d : StudentData) : Student :=
  { student_id := d.student_id, full_name := d.full_name, group := d.group,
    email := d.email, test_attempts := [] }

/-- Serialized form of a `Question` (`Question.to_dict`; the enum is stored
by name, which round-trips losslessly, so we keep the enum value). -/
structure QuestionData where
  question_id : Nat
  text : String
  question_type : QuestionType
  options : List String
  correct_answers : List String
  max_points : ℚ
  is_active : Bool
deriving DecidableEq, Repr

/-- `Question.to_dict`. -/
def Question.to_dict (q : Question) : QuestionData :=
  { question_id := q.question_id, text := q.text, question_type := q.question_type,
    options := q.options, correct_answers := q.correct_answers,
    max_points := q.max_points, is_active := q.is_active }

/-- `Question.from_dict`. -/
def Question.from_dict (d : QuestionData) : Question :=
  { question_id := d.question_id, text := d.text, question_type := d.question_type,
    options := d.options, correct_answers := d.correct_answers,
    max_points := d.max_points, is_active := d.is_active }

/-- Serialized form of a `Test` (`Test.to_dict`). -/
structure TestData where
  test_id : Nat
  title : String
  subject : String
  time_limit : Nat
  questions : List QuestionData
  is_active : Bool
  passing_score : ℚ
deriving DecidableEq, Repr

/-- `Test.to_dict`. -/
def Test.to_dict (t : Test) : TestData :=
  { test_id := t.test_id, title := t.title, subject := t.subject,
    time_limit := t.time_limit, questions := t.questions.map Question.to_dict,
    is_active := t.is_active, passing_score := t.passing_score }

/-- `Test.from_dict`. -/
def Test.from_dict (d : TestData) : Test :=
  { test_id := d.test_id, title := d.title, subject := d.subject,
    time_limit := d.time_limit, questions := d.questions.map Question.from_dict,
    is_active := d.is_active, passing_score := d.passing_score }

/-- JSON object keys are strings: `json.dump` converts an `int` dict key to
its decimal string; a `str` key is kept. -/
def PyKey.toJsonKey : PyKey → String
  | .int n => toString n
  | .str s => s

/-- Serialized form of a `TestAttempt` (`TestAttempt.to_dict` followed by
`json.dump`): the `answers`/`scores` dicts become JSON objects whose keys
are strings; timestamps round-trip losslessly through `isoformat`, so we
keep the rational value. -/
structure AttemptData where
  attempt_id : Nat
  student_id : Nat
  test_id : Nat
  start_time : ℚ
  end_time : Option ℚ
  status : TestStatus
  answers : List (String × List String)
  scores : List (String × ℚ)
  final_score : ℚ
  percentage : ℚ
  is_passed : Bool
deriving DecidableEq, Repr

/-- `TestAttempt.to_dict` composed with JSON encoding of the dict keys. -/
def TestAttempt.to_dict (a : TestAttempt) : AttemptData :=
  { attempt_id := a.attempt_id, student_id := a.student_id, test_id := a.test_id,
    start_time := a.start_time, end_time := a.end_time, status := a.status,
    answers := a.answers.map (fun p => (p.1.toJsonKey, p.2)),
    scores := a.scores.map (fun p => (p.1.toJsonKey, p.2)),
    final_score := a.final_score, percentage := a.percentage, is_passed := a.is_passed }

/-- The full JSON snapshot written by `TestingSystem.save_data`. -/
structure SaveData where
  students : List StudentData
  tests : List TestData
  attempts : List AttemptData
  counter_student : Nat
  counter_test : Nat
  counter_attempt : Nat
  counter_question : Nat
deriving DecidableEq, Repr

/-- `TestingSystem.save_data`: serializes every student, test (with nested
questions), attempt, and the four id counters. -/
def TestingSystem.save_data (s : TestingSystem) : SaveData :=
  { students := s.students.map Student.to_dict,
    tests := s.tests.map Test.to_dict,
    attempts := s.attempts.map TestAttempt.to_dict,
    counter_student := s.next_student_id,
    counter_test := s.next_test_id,
    counter_attempt := s.next_attempt_id,
    counter_question := s.next_question_id }

/-- The attempt-restoration loop of `TestingSystem.load_data`: for each
serialized attempt whose student and test ids resolve, rebuild the attempt
(its dict keys are now the JSON string keys) and link it into the registry
list and the owning student's list; otherwise drop it silently. -/
def loadAttempts (tests : List Test) :
    List Student → List AttemptData → List Student × List TestAttempt
  | students, [] => (students, [])
  | students, d :: rest =>
      match students.find? (fun st => st.student_id == d.student_id),
            tests.find? (fun t => t.test_id == d.test_id) with
      | some _, some _ =>
          let attempt : TestAttempt :=
            { attempt_id := d.attempt_id, student_id := d.student_id, test_id := d.test_id,
              start_time := d.start_time, end_time := d.end_time, status := d.status,
              answers := d.answers.map (fun p => (PyKey.str p.1, p.2)),
              scores := d.scores.map (fun p => (PyKey.str p.1, p.2)),
              final_score := d.final_score, percentage := d.percentage,
              is_passed := d.is_passed }
          let students1 := updateFirst (fun st => st.student_id == d.student_id)
            (fun st => { st with test_attempts := st.test_attempts ++ [d.attempt_id] }) students
          let (students2, attempts2) := loadAttempts tests students1 rest
          (students2, attempt :: attempts2)
      | _, _ => loadAttempts tests students rest

/-- `TestingSystem.load_data` on a well-formed snapshot: rebuild the
students and tests from their dicts, restore the attempts with
cross-references resolved by id, and restore the counters. -/
def load_data (d : SaveData) : TestingSystem :=
  let students0 := d.students.map Student.from_dict
  let tests := d.tests.map Test.from_dict
  let (students, attempts) := loadAttempts tests students0 d.attempts
  { students := students, tests := tests, attempts := attempts,
    next_student_id := d.counter_student,
    next_test_id := d.counter_test,
    next_attempt_id := d.counter_attempt,
    next_question_id := d.counter_question }

/-- The UI's question toggle (`toggle_question_status`): find the question
by id in the test's list and flip its flag in place. -/
def toggle_question (t : Test) (question_id : Nat) : Test :=
  let questions1 := updateFirst (fun q => q.question_id == question_id)
    Question.toggle_active t.questions
  { t with questions := questions1 }

/-- Registry-level view of the question toggle: the test found by id is
mutated in place, every other entity is untouched. -/
def toggle_question_in_system (s : TestingSystem) (test_id question_id : Nat) : TestingSystem :=
  let tests1 := updateFirst (fun t => t.test_id == test_id)
    (fun t => toggle_question t question_id) s.tests
  { s with tests := tests1 }

/-- One call against a `TestAttempt` (the clock value and arguments are part
of the event). -/
inductive AttemptOp
  | start (now : ℚ)
  | submit (question_id : Nat) (answers : List String)
  | finish (now : ℚ)
  | evaluate (manual_scores : Option (List (PyKey × ℚ)))
deriving DecidableEq, Repr

/-- Dispatch one call to the corresponding `TestAttempt` method. -/
def applyOp (t : Test) (op : AttemptOp) (a : TestAttempt) : TestAttempt :=
  match op with
  | .start now => a.start_attempt now
  | .submit qid ans => TestAttempt.submit_answer t a qid ans
  | .finish now => a.finish_attempt now t
  | .evaluate ms => a.evaluate_attempt ms t

/-- Run a sequence of calls left to right. -/
def runOps (t : Test) (a : TestAttempt) : List AttemptOp → TestAttempt
  | [] => a
  | op :: l => runOps t (applyOp t op a) l

/-- The statuses observed along a sequence of calls (initial status
included). -/
def statusTrace (t : Test) (a : TestAttempt) : List AttemptOp → List TestStatus
  | [] => [a.status]
  | op :: l => a.status :: statusTrace t (applyOp t op a) l

/-- Position of a status in the forward order
`NotStarted → InProgress → Completed → Evaluated`. -/
def statusRank : TestStatus → Nat
  | .notStarted => 0
  | .inProgress => 1
  | .completed => 2
  | .evaluated => 3

/-- The state-machine phase an operation belongs to (submissions belong to
the in-progress phase). -/
def opPhase : AttemptOp → Nat
  | .start _ => 1
  | .submit _ _ => 1
  | .finish _ => 2
  | .evaluate _ => 3

/-! Concrete data used by witnesses and counterexamples, built with the
engine's own constructors (the questions and options mirror the seeded
demonstration data of `create_sample_data`). -/

/-- The seeded single-choice question: options `["6","8","10"]`, correct
`["6"]`, worth 2 points. -/
def demoSingle : Question := Question.mk' 1 "2 + 2 * 2" .singleChoice ["6", "8", "10"] ["6"] 2

/-- The seeded multiple-choice question: options `["2","4","7","9","11"]`,
correct `["2","7","11"]`. -/
def demoMultiple : Question :=
  Question.mk' 2 "primes" .multipleChoice ["2", "4", "7", "9", "11"] ["2", "7", "11"] 1

/-- A test holding only the seeded single-choice question. -/
def demoSingleTest : Test := (Test.mk' 1 "math" "math" 45).add_question demoSingle

/-- A 1-point active single-choice question. -/
def demoActivePoint : Question := Question.mk' 1 "small" .singleChoice ["a"] ["a"] 1

/-- A 5-point single-choice question that has been deactivated with
`toggle_active`. -/
def demoHidden : Question :=
  Question.toggle_active (Question.mk' 2 "hidden" .singleChoice ["b", "c"] ["b"] 5)

/-- A test whose max score is 1 (one active question) but which still holds
the deactivated 5-point question. -/
def demoHiddenTest : Test :=
  ((Test.mk' 1 "t" "s" 45).add_question demoActivePoint).add_question demoHidden

/-- A fresh attempt against test 1 by student 1. -/
def demoAttempt : TestAttempt := TestAttempt.mk' 1 1 1 0

/-- The spec's two-question scenario test: active questions worth 6 and 3
points (max score 9). -/
def demoTest63 : Test :=
  ((Test.mk' 2 "t63" "s" 45).add_question
      (Question.mk' 1 "q6" .singleChoice ["a"] ["a"] 6)).add_question
    (Question.mk' 2 "q3" .singleChoice ["b"] ["b"] 3)

/-- A test with no questions at all, so its max score is 0. -/
def demoEmptyTest : Test := Test.mk' 3 "empty" "s" 60

/-- An attempt that has recorded scores (7 points on question 1). -/
def demoScoredAttempt : TestAttempt :=
  { attempt_id := 1, student_id := 1, test_id := 3, start_time := 0, end_time := none,
    status := .inProgress, answers := [], scores := [(PyKey.int 1, 7)],
    final_score := 0, percentage := 0, is_passed := false }

/-- A student with no attempts yet. -/
def demoStudent : Student :=
  { student_id := 1, full_name := "A", group := "G", email := "", test_attempts := [] }

/-- Registry used for the attempt-cap scenario: one student, one test,
no attempts. -/
def demoSysCap : TestingSystem :=
  { students := [demoStudent], tests := [demoSingleTest], attempts := [],
    next_student_id := 2, next_test_id := 2, next_attempt_id := 1, next_question_id := 2 }

/-- State after the 1st creation. -/
def demoSysCap1 : TestingSystem := (demoSysCap.create_attempt 1 1 0).1

/-- State after the 2nd creation. -/
def demoSysCap2 : TestingSystem := (demoSysCap1.create_attempt 1 1 1).1

/-- State after the 3rd creation. -/
def demoSysCap3 : TestingSystem := (demoSysCap2.create_attempt 1 1 2).1

/-- Registry used for the deletion-guard scenario: two tests, one attempt
referencing test 1 only. -/
def demoSysDel : TestingSystem :=
  { students := [demoStudent], tests := [demoSingleTest, demoEmptyTest], attempts := [TestAttempt.mk' 1 1 1 0],
    next_student_id := 2, next_test_id := 4, next_attempt_id := 2, next_question_id := 2 }

/-- An evaluated, passed attempt with a one-minute duration. -/
def demoEvaluatedAttempt : TestAttempt :=
  { attempt_id := 1, student_id := 1, test_id := 1, start_time := 0, end_time := some 60,
    status := .evaluated, answers := [(PyKey.int 2, ["b"])], scores := [(PyKey.int 2, 5)],
    final_score := 5, percentage := 500, is_passed := true }

/-- Registry holding the evaluated attempt (used for statistics and for the
persistence round trip). -/
def demoSysEval : TestingSystem :=
  { students := [{ demoStudent with test_attempts := [1] }], tests := [demoHiddenTest],
    attempts := [demoEvaluatedAttempt],
    next_student_id := 2, next_test_id := 2, next_attempt_id := 2, next_question_id := 3 }

/-- A protocol-ordered call sequence: start, submit, finish, evaluate. -/
def demoOps : List AttemptOp :=
  [.start 0, .submit 2 ["b"], .finish 60, .evaluate none]

/-! Helper lemmas about the embedded operations. -/

/-- Looking up a key right after a dict assignment yields the assigned
value. -/
theorem lookup_updateAssoc {α : Type} (m : List (PyKey × α)) (k : PyKey) (v : α) :
    List.lookup k (updateAssoc m k v) = some v := by
  unfold updateAssoc
  split
  · rename_i hany
    induction m with
    | nil => simp at hany
    | cons p m ih =>
        cases hpk : (p.1 == k) with
        | true =>
            rw [List.map_cons, if_pos hpk]
            simp [List.lookup]
        | false =>
            have hne : p.1 ≠ k := by simpa using hpk
            have hkp : (k == p.1) = false := by
              simp only [beq_eq_false_iff_ne, ne_eq]
              exact fun h => hne h.symm
            have hany2 : (m.any fun q => q.1 == k) = true := by
              simpa [List.any_cons, hpk] using hany
            rw [List.map_cons, if_neg (by simp [hpk])]
            simpa [List.lookup, hkp] using ih hany2
  · rename_i hany
    induction m with
    | nil => simp [List.lookup]
    | cons p m ih =>
        have h1 : ¬ p.1 = k ∧ ¬ (m.any fun q => q.1 == k) = true := by
          simpa [List.any_cons] using hany
        have hkp : (k == p.1) = false := by
          simp only [beq_eq_false_iff_ne, ne_eq]
          exact fun h => h1.1 h.symm
        simpa [List.lookup, hkp] using ih h1.2

/-- Auto-scoring inside `submit_answer`: when the question id resolves in
the test's full question list to a choice question, the recorded score is
the full `max_points` on a correct answer and `0` on a wrong one. -/
theorem submit_answer_records_score (t : Test) (a : TestAttempt) (question_id : Nat)
    (answers : List String) (q : Question)
    (hfind : t.questions.find? (fun qq => qq.question_id == question_id) = some q)
    (htype : q.question_type = .singleChoice ∨ q.question_type = .multipleChoice) :
    (q.check_answer answers = true →
      List.lookup (PyKey.int question_id) (TestAttempt.submit_answer t a question_id answers).scores
        = some q.max_points)
    ∧ (q.check_answer answers = false →
      List.lookup (PyKey.int question_id) (TestAttempt.submit_answer t a question_id answers).scores
        = some 0) := by
  constructor
  · intro hc
    unfold TestAttempt.submit_answer
    rw [hfind]
    simp only [htype, if_pos, hc, if_true]
    exact lookup_updateAssoc _ _ _
  · intro hc
    unfold TestAttempt.submit_answer
    rw [hfind]
    simp only [htype, if_pos, hc]
    simp only [Bool.false_eq_true, if_false]
    exact lookup_updateAssoc _ _ _

/-- C1: `finish_attempt` and `evaluate_attempt` apply the same score
recomputation: the final score is the sum of the recorded per-question
scores (for `evaluate`, after merging the manual scores), the percentage is
`final / maxScore * 100` when the test's current max score is positive and
`0` otherwise (so it is `0` whenever `maxScore = 0`, regardless of the
recorded scores), and `is_passed` holds iff the percentage reaches the
test's passing threshold. -/
theorem C1_score_recomputation (t : Test) (a : TestAttempt) (now : ℚ)
    (manual_scores : Option (List (PyKey × ℚ))) :
    ((a.finish_attempt now t).final_score = dictValuesSum a.scores
      ∧ (a.finish_attempt now t).percentage =
          (if 0 < t.get_max_score then dictValuesSum a.scores / t.get_max_score * 100 else 0)
      ∧ ((a.finish_attempt now t).is_passed = true ↔
          t.passing_score ≤ (a.finish_attempt now t).percentage))
    ∧ ((a.evaluate_attempt manual_scores t).final_score
          = dictValuesSum (a.evaluate_attempt manual_scores t).scores
      ∧ (a.evaluate_attempt manual_scores t).percentage =
          (if 0 < t.get_max_score then
            (a.evaluate_attempt manual_scores t).final_score / t.get_max_score * 100 else 0)
      ∧ ((a.evaluate_attempt manual_scores t).is_passed = true ↔
          t.passing_score ≤ (a.evaluate_attempt manual_scores t).percentage))
    ∧ (t.get_max_score = 0 →
        (a.finish_attempt now t).percentage = 0
        ∧ (a.evaluate_attempt manual_scores t).percentage = 0) := by
  cases manual_scores <;>
    refine ⟨⟨?_, ?_, ?_⟩, ⟨?_, ?_, ?_⟩, fun h => ⟨?_, ?_⟩⟩ <;>
      simp_all [TestAttempt.finish_attempt, TestAttempt.evaluate_attempt,
        TestAttempt.calculate_score, gt_iff_lt, lt_irrefl]

/-- C1 witness: against a test whose max score is 0, an attempt that has
7 recorded points still finishes and evaluates with percentage 0. -/
theorem C1_score_recomputation_witness :
    (demoScoredAttempt.finish_attempt 60 demoEmptyTest).percentage = 0
    ∧ (demoScoredAttempt.evaluate_attempt none demoEmptyTest).percentage = 0 :=
  (C1_score_recomputation demoEmptyTest demoScoredAttempt 60 none).2.2 rfl

/-- C2: a multiple-choice answer is accepted iff the submitted values and
the correct answers contain exactly the same elements (order and
multiplicity ignored): no subset or superset credit. -/
theorem C2_multiple_choice_exact_set (q : Question) (submitted : List String)
    (hq : q.question_type = QuestionType.multipleChoice) :
    (q.check_answer submitted = true ↔
      ∀ x : String, x ∈ submitted ↔ x ∈ q.correct_answers) := by
  unfold Question.check_answer
  rw [hq]
  simp only [Bool.and_eq_true, List.all_eq_true]
  constructor
  · rintro ⟨h1, h2⟩ x
    constructor
    · intro hx
      simpa using h1 x hx
    · intro hx
      simpa using h2 x hx
  · intro h
    constructor
    · intro x hx
      simpa using (h x).1 hx
    · intro x hx
      simpa using (h x).2 hx

/-- C2 witness: the seeded multiple-choice question at the submission
`["7","2","11"]`. -/
theorem C2_multiple_choice_exact_set_witness :
    demoMultiple.check_answer ["7", "2", "11"] = true ↔
      ∀ x : String, x ∈ ["7", "2", "11"] ↔ x ∈ demoMultiple.correct_answers :=
  C2_multiple_choice_exact_set demoMultiple ["7", "2", "11"] rfl

/-- C3: a single-choice answer is accepted iff the submission is non-empty
and its first element is among the correct answers (empty submissions are
rejected); consequently `submit_answer` records the full `max_points` for a
correct option and `0` for a wrong one. -/
theorem C3_single_choice_first_and_scoring (t : Test) (a : TestAttempt) (q : Question)
    (question_id : Nat) (submitted : List String)
    (hq : q.question_type = QuestionType.singleChoice)
    (hfind : t.questions.find? (fun qq => qq.question_id == question_id) = some q) :
    (q.check_answer [] = false)
    ∧ (∀ (x : String) (rest : List String),
        q.check_answer (x :: rest) = q.correct_answers.contains x)
    ∧ (q.check_answer submitted = true →
        List.lookup (PyKey.int question_id)
          (TestAttempt.submit_answer t a question_id submitted).scores = some q.max_points)
    ∧ (q.check_answer submitted = false →
        List.lookup (PyKey.int question_id)
          (TestAttempt.submit_answer t a question_id submitted).scores = some 0) := by
  have hrec := submit_answer_records_score t a question_id submitted q hfind (Or.inl hq)
  refine ⟨?_, ?_, hrec.1, hrec.2⟩
  · unfold Question.check_answer
    rw [hq]
  · intro x rest
    unfold Question.check_answer
    rw [hq]

/-- C3 witness: the seeded question with options `["6","8","10"]` and
correct answer `["6"]`: an empty submission is rejected, submitting `["6"]`
records the full 2 points, submitting `["8"]` records 0. -/
theorem C3_single_choice_first_and_scoring_witness :
    demoSingle.check_answer [] = false
    ∧ List.lookup (PyKey.int 1)
        (TestAttempt.submit_answer demoSingleTest demoAttempt 1 ["6"]).scores
        = some demoSingle.max_points
    ∧ List.lookup (PyKey.int 1)
        (TestAttempt.submit_answer demoSingleTest demoAttempt 1 ["8"]).scores
        = some 0 := by
  have h6 := C3_single_choice_first_and_scoring demoSingleTest demoAttempt demoSingle 1 ["6"]
    rfl (by decide)
  have h8 := C3_single_choice_first_and_scoring demoSingleTest demoAttempt demoSingle 1 ["8"]
    rfl (by decide)
  exact ⟨h6.1, h6.2.2.1 (by decide), h8.2.2.2 (by decide)⟩

/-- C4: `create_attempt` returns absent and leaves the state unchanged when
either id does not resolve, or when the student already has three or more
attempts against that exact test; otherwise it builds a fresh attempt with
the next id, appends it to the registry's attempt list and to the student's
attempt list, and bumps the attempt counter. -/
theorem C4_attempt_cap (s : TestingSystem) (student_id test_id : Nat) (now : ℚ) :
    ((s.find_student_by_id student_id = none ∨ s.find_test_by_id test_id = none) →
        s.create_attempt student_id test_id now = (s, none))
    ∧ (s.find_student_by_id student_id ≠ none →
        s.find_test_by_id test_id ≠ none →
        3 ≤ (s.attempts.filter
            (fun a => a.student_id == student_id && a.test_id == test_id)).length →
        s.create_attempt student_id test_id now = (s, none))
    ∧ (s.find_student_by_id student_id ≠ none →
        s.find_test_by_id test_id ≠ none →
        (s.attempts.filter
            (fun a => a.student_id == student_id && a.test_id == test_id)).length < 3 →
        s.create_attempt student_id test_id now =
          ({ s with
              attempts := s.attempts ++ [TestAttempt.mk' s.next_attempt_id student_id test_id now],
              students := updateFirst (fun st => st.student_id == student_id)
                (fun st => st.add_attempt s.next_attempt_id) s.students,
              next_attempt_id := s.next_attempt_id + 1 },
            some (TestAttempt.mk' s.next_attempt_id student_id test_id now))) := by
  refine ⟨?_, ?_, ?_⟩
  · intro h
    unfold TestingSystem.create_attempt
    rcases h with h | h
    · rw [h]
    · rw [h]
      cases s.find_student_by_id student_id <;> rfl
  · intro h1 h2 h3
    rcases Option.ne_none_iff_exists'.mp h1 with ⟨st, hst⟩
    rcases Option.ne_none_iff_exists'.mp h2 with ⟨tt, htt⟩
    simp [TestingSystem.create_attempt, hst, htt, h3]
  · intro h1 h2 h3
    rcases Option.ne_none_iff_exists'.mp h1 with ⟨st, hst⟩
    rcases Option.ne_none_iff_exists'.mp h2 with ⟨tt, htt⟩
    have hlt : ¬ 3 ≤ (s.attempts.filter
        (fun a => a.student_id == student_id && a.test_id == test_id)).length := by omega
    simp [TestingSystem.create_attempt, hst, htt, hlt, TestAttempt.mk']

/-- C4 witness: against the registry with one student and one test, the 1st,
2nd and 3rd attempt creations succeed (returning attempts 1, 2, 3) and the
4th is refused with the state unchanged. -/
theorem C4_attempt_cap_witness :
    (demoSysCap.create_attempt 1 1 0).2 = some (TestAttempt.mk' 1 1 1 0)
    ∧ (demoSysCap1.create_attempt 1 1 1).2 = some (TestAttempt.mk' 2 1 1 1)
    ∧ (demoSysCap2.create_attempt 1 1 2).2 = some (TestAttempt.mk' 3 1 1 2)
    ∧ demoSysCap3.create_attempt 1 1 3 = (demoSysCap3, none) := by
  have h1 := ((C4_attempt_cap demoSysCap 1 1 0).2.2 (by decide) (by decide) (by decide))
  have h2 := ((C4_attempt_cap demoSysCap1 1 1 1).2.2 (by decide) (by decide) (by decide))
  have h3 := ((C4_attempt_cap demoSysCap2 1 1 2).2.2 (by decide) (by decide) (by decide))
  have h4 := ((C4_attempt_cap demoSysCap3 1 1 3).2.1 (by decide) (by decide) (by decide))
  exact ⟨by rw [h1]; rfl, by rw [h2]; rfl, by rw [h3]; rfl, h4⟩

/-- C5: `delete_test` is refused (result `false`, registry unchanged)
whenever at least one attempt, of any status, references the test; when no
attempt references it and the test exists, the test is removed from the
list. -/
theorem C5_delete_test_guard (s : TestingSystem) (test_id : Nat) :
    ((s.attempts.any fun a => a.test_id == test_id) = true →
        s.delete_test test_id = (s, false))
    ∧ ((∀ a ∈ s.attempts, ¬ a.test_id = test_id) →
        ∀ t, s.find_test_by_id test_id = some t →
          s.delete_test test_id =
            ({ s with tests := s.tests.eraseP (fun t2 => t2.test_id == test_id) }, true)) := by
  constructor
  · intro h
    unfold TestingSystem.delete_test
    cases ht : s.find_test_by_id test_id with
    | none => rfl
    | some t => simp [h]
  · intro h t ht
    unfold TestingSystem.delete_test
    rw [ht]
    have hany : (s.attempts.any fun a => a.test_id == test_id) = false := by
      rw [List.any_eq_false]
      intro a ha
      simpa using h a ha
    simp [hany]

/-- C5 witness: in the registry whose single attempt references test 1,
deleting test 1 is refused with the state unchanged, while deleting the
unreferenced test 3 removes it. -/
theorem C5_delete_test_guard_witness :
    demoSysDel.delete_test 1 = (demoSysDel, false)
    ∧ demoSysDel.delete_test 3 =
        ({ demoSysDel with tests := demoSysDel.tests.eraseP (fun t2 => t2.test_id == 3) },
          true) :=
  ⟨(C5_delete_test_guard demoSysDel 1).1 (by decide),
    (C5_delete_test_guard demoSysDel 3).2 (by decide) demoEmptyTest (by decide)⟩

/-- C6: the max score is the sum of `max_points` over the currently-active
questions, recomputed from the current question list on each call (so the
spec's 6+3 scenario gives 9 before and 3 after deactivating the 6-point
question), while toggling a question's flag or removing a question leaves
every stored attempt (hence the stored percentage, final score and pass
flag of previously evaluated attempts) and every student untouched. -/
theorem C6_max_score_dynamic_and_frame (s : TestingSystem) (test_id question_id : Nat) :
    (toggle_question_in_system s test_id question_id).attempts = s.attempts
    ∧ (toggle_question_in_system s test_id question_id).students = s.students
    ∧ (s.delete_question test_id question_id).1.attempts = s.attempts
    ∧ (∀ t : Test, t.get_max_score
        = ((t.questions.filter (fun q => q.is_active)).map (fun q => q.max_points)).sum)
    ∧ demoTest63.get_max_score = 9
    ∧ (toggle_question demoTest63 1).get_max_score = 3 := by
  refine ⟨rfl, rfl, ?_, fun t => rfl, ?_, ?_⟩
  · unfold TestingSystem.delete_question
    cases s.find_test_by_id test_id <;> rfl
  · have h : demoTest63.get_active_questions
        = [Question.mk' 1 "q6" .singleChoice ["a"] ["a"] 6,
           Question.mk' 2 "q3" .singleChoice ["b"] ["b"] 3] := by decide
    rw [Test.get_max_score, h]
    norm_num [Question.mk', List.sum_cons, List.sum_nil]
  · have h : (toggle_question demoTest63 1).get_active_questions
        = [Question.mk' 2 "q3" .singleChoice ["b"] ["b"] 3] := by decide
    rw [Test.get_max_score, h]
    norm_num [Question.mk', List.sum_cons, List.sum_nil]

/-- Submitting an answer never changes the attempt's status. -/
theorem submit_answer_status (t : Test) (a : TestAttempt) (question_id : Nat)
    (answers : List String) :
    (TestAttempt.submit_answer t a question_id answers).status = a.status := by
  unfold TestAttempt.submit_answer
  cases t.questions.find? (fun q => q.question_id == question_id) with
  | none => rfl
  | some q =>
      by_cases h : q.question_type = QuestionType.singleChoice
          ∨ q.question_type = QuestionType.multipleChoice
      · by_cases hc : q.check_answer answers = true
        · simp [h, hc]
        · simp [h, hc]
      · simp [h]

/-- The status after one call is the call's fixed target status; the prior
status only survives a `submit_answer`. -/
theorem applyOp_status (t : Test) (op : AttemptOp) (a : TestAttempt) :
    (applyOp t op a).status =
      (match op with
        | .start _ => TestStatus.inProgress
        | .submit _ _ => a.status
        | .finish _ => TestStatus.completed
        | .evaluate _ => TestStatus.evaluated) := by
  cases op with
  | start now => rfl
  | submit question_id answers => exact submit_answer_status t a question_id answers
  | finish now => rfl
  | evaluate ms => cases ms <;> rfl

/-- The first status of a trace is the attempt's current status. -/
theorem statusTrace_head (t : Test) (a : TestAttempt) (l : List AttemptOp) :
    (statusTrace t a l).head? = some a.status := by
  cases l <;> rfl

/-- Along any phase-ordered call sequence started at a status no later than
the first call's phase, the observed statuses never move backward. -/
theorem statusTrace_chain (t : Test) :
    ∀ (l : List AttemptOp) (a : TestAttempt),
      (∀ op ∈ l.head?, statusRank a.status ≤ opPhase op) →
      List.Chain' (fun x y => opPhase x ≤ opPhase y) l →
      List.Chain' (fun x y => statusRank x ≤ statusRank y) (statusTrace t a l) := by
  intro l
  induction l with
  | nil =>
      intro a h hc
      exact List.chain'_singleton _
  | cons op l ih =>
      intro a h hc
      have hop : statusRank a.status ≤ opPhase op := h op (by simp)
      have hnext : statusRank (applyOp t op a).status ≤ opPhase op := by
        rw [applyOp_status]
        cases op with
        | start _ => exact Nat.le_refl _
        | submit _ _ => exact hop
        | finish _ => exact Nat.le_refl _
        | evaluate _ => exact Nat.le_refl _
      have hstep : statusRank a.status ≤ statusRank (applyOp t op a).status := by
        rw [applyOp_status]
        cases op with
        | start _ => exact hop
        | submit _ _ => exact Nat.le_refl _
        | finish _ => exact hop
        | evaluate _ => exact hop
      rcases List.chain'_cons'.mp hc with ⟨hhead, htail⟩
      rw [statusTrace, List.chain'_cons']
      constructor
      · intro y hy
        rw [statusTrace_head, Option.mem_def, Option.some_inj] at hy
        rw [← hy]
        exact hstep
      · exact ih (applyOp t op a)
          (fun op2 hop2 => le_trans hnext (hhead op2 hop2)) htail

/-- C7 (amended): each operation sets the status unconditionally — `start`
to InProgress, `finish` to Completed, `evaluate` to Evaluated, while
`submit_answer` leaves it unchanged — so along any call sequence that is in
protocol order (phases start/submit ≤ finish ≤ evaluate) from a NotStarted
attempt, the status never transitions back; out-of-order calls are not
guarded and can move the status backward. -/
theorem C7_status_machine_protocol (t : Test) (a : TestAttempt) (l : List AttemptOp)
    (now : ℚ) (manual_scores : Option (List (PyKey × ℚ)))
    (question_id : Nat) (answers : List String) :
    ((a.start_attempt now).status = TestStatus.inProgress
      ∧ (TestAttempt.submit_answer t a question_id answers).status = a.status
      ∧ (a.finish_attempt now t).status = TestStatus.completed
      ∧ (a.evaluate_attempt manual_scores t).status = TestStatus.evaluated)
    ∧ (a.status = TestStatus.notStarted →
        List.Chain' (fun x y => opPhase x ≤ opPhase y) l →
        List.Chain' (fun x y => statusRank x ≤ statusRank y) (statusTrace t a l)) := by
  refine ⟨⟨rfl, submit_answer_status t a question_id answers, rfl, ?_⟩, ?_⟩
  · cases manual_scores <;> rfl
  · intro h0 hc
    apply statusTrace_chain
    · intro op hop
      rw [h0]
      exact Nat.zero_le _
    · exact hc

/-- C7 counterexample: the operations do not guard the current state, so
calling `start_attempt` right after `finish_attempt` moves the status from
Completed back to InProgress — a backward transition, refuting the claim
that no call sequence ever moves the status back. -/
theorem C7_backward_transition_counterexample :
    statusRank (runOps demoHiddenTest demoAttempt
        [AttemptOp.finish 1, AttemptOp.start 2]).status
      < statusRank (runOps demoHiddenTest demoAttempt [AttemptOp.finish 1]).status := by
  decide

/-- C7 witness: the protocol-ordered sequence start, submit, finish,
evaluate on a fresh attempt yields a monotone status trace. -/
theorem C7_status_machine_protocol_witness :
    ((demoAttempt.start_attempt 0).status = TestStatus.inProgress
      ∧ (TestAttempt.submit_answer demoHiddenTest demoAttempt 2 ["b"]).status
          = demoAttempt.status
      ∧ (demoAttempt.finish_attempt 0 demoHiddenTest).status = TestStatus.completed
      ∧ (demoAttempt.evaluate_attempt none demoHiddenTest).status = TestStatus.evaluated)
    ∧ List.Chain' (fun x y => statusRank x ≤ statusRank y)
        (statusTrace demoHiddenTest demoAttempt demoOps) := by
  have h := C7_status_machine_protocol demoHiddenTest demoAttempt demoOps 0 none 2 ["b"]
  exact ⟨h.1, h.2 rfl (by simp [demoOps, List.chain'_cons, List.chain'_singleton, opPhase])⟩

/-- C8: evaluating save-then-load on a registry holding one evaluated
attempt: the students, tests and all four id counters are reconstructed
exactly, but the attempt's `scores` dict comes back with its integer
question-id key stringified by JSON (`{1: …}` becomes `{"1": …}`), so the
reloaded state is not equal to the saved one — the round trip is not
lossless. -/
theorem C8_roundtrip_stringifies_dict_keys :
    (load_data demoSysEval.save_data).students = demoSysEval.students
    ∧ (load_data demoSysEval.save_data).tests = demoSysEval.tests
    ∧ (load_data demoSysEval.save_data).next_student_id = demoSysEval.next_student_id
    ∧ (load_data demoSysEval.save_data).next_test_id = demoSysEval.next_test_id
    ∧ (load_data demoSysEval.save_data).next_attempt_id = demoSysEval.next_attempt_id
    ∧ (load_data demoSysEval.save_data).next_question_id = demoSysEval.next_question_id
    ∧ demoSysEval.attempts.map (fun a => a.scores) = [[(PyKey.int 2, 5)]]
    ∧ (load_data demoSysEval.save_data).attempts.map (fun a => a.scores)
        = [[(PyKey.str "2", 5)]]
    ∧ load_data demoSysEval.save_data ≠ demoSysEval := by
  decide

/-- C9: the statistics are computed only over this test's attempts in
status Evaluated: the result is absent exactly when there are none, and
otherwise reports their count, the passed count, pass rate
`passed/total*100`, and the unweighted means of their percentages and
durations in minutes. -/
theorem C9_statistics_evaluated_only (s : TestingSystem) (test_id : Nat) :
    (s.get_test_statistics test_id = none ↔
      s.attempts.filter
        (fun a => a.test_id == test_id && a.status == TestStatus.evaluated) = [])
    ∧ (∀ st, s.get_test_statistics test_id = some st →
        st.total_attempts = (s.attempts.filter
            (fun a => a.test_id == test_id && a.status == TestStatus.evaluated)).length
        ∧ st.passed_attempts = ((s.attempts.filter
            (fun a => a.test_id == test_id && a.status == TestStatus.evaluated)).filter
              (fun a => a.is_passed)).length
        ∧ st.success_rate = (st.passed_attempts : ℚ) / (st.total_attempts : ℚ) * 100
        ∧ st.avg_score = ((s.attempts.filter
            (fun a => a.test_id == test_id && a.status == TestStatus.evaluated)).map
              (fun a => a.percentage)).sum / (st.total_attempts : ℚ)
        ∧ st.avg_time = ((s.attempts.filter
            (fun a => a.test_id == test_id && a.status == TestStatus.evaluated)).map
              (fun a => a.get_duration)).sum / (st.total_attempts : ℚ)) := by
  constructor
  · simp only [TestingSystem.get_test_statistics]
    split
    · rename_i he
      rw [List.isEmpty_iff] at he
      simp [he]
    · rename_i he
      rw [List.isEmpty_iff] at he
      simp [he]
  · intro st hst
    simp only [TestingSystem.get_test_statistics] at hst
    split at hst
    · exact absurd hst (by simp)
    · rw [Option.some_inj] at hst
      subst hst
      exact ⟨rfl, rfl, rfl, rfl, rfl⟩

/-- The statistics record for the registry with one evaluated attempt:
1 attempt, 1 passed, 100% pass rate, mean percentage 500, mean duration 1
minute. -/
def demoStats : TestStats :=
  { total_attempts := 1, passed_attempts := 1, success_rate := 100,
    avg_score := 500, avg_time := 1 }

/-- C9 witness: the registry with exactly one evaluated attempt. -/
theorem C9_statistics_evaluated_only_witness :
    demoStats.success_rate
        = (demoStats.passed_attempts : ℚ) / (demoStats.total_attempts : ℚ) * 100
    ∧ demoStats.avg_time = ((demoSysEval.attempts.filter
          (fun a => a.test_id == 1 && a.status == TestStatus.evaluated)).map
            (fun a => a.get_duration)).sum / (demoStats.total_attempts : ℚ) := by
  have hst : demoSysEval.get_test_statistics 1 = some demoStats := by
    unfold TestingSystem.get_test_statistics
    have hf : demoSysEval.attempts.filter
        (fun a => a.test_id == 1 && a.status == TestStatus.evaluated)
        = [demoEvaluatedAttempt] := by decide
    rw [hf]
    norm_num [demoStats, demoEvaluatedAttempt, TestAttempt.get_duration,
      List.sum_cons, List.sum_nil]
  have h := (C9_statistics_evaluated_only demoSysEval 1).2 demoStats hst
  exact ⟨h.2.2.1, h.2.2.2.2⟩

/-- C10: `submit_answer` resolves the question id in the test's full
question list with no regard to the active flag, so a correct answer to a
deactivated choice question still records its full `max_points`; since
`get_max_score` excludes deactivated questions, an attempt that answers the
hidden 5-point question of a test whose max score is 1 finishes with a
recomputed percentage of 500 — strictly above 100. -/
theorem C10_inactive_question_still_scored (t : Test) (a : TestAttempt)
    (question_id : Nat) (submitted : List String) (q : Question)
    (hfind : t.questions.find? (fun qq => qq.question_id == question_id) = some q)
    (htype : q.question_type = QuestionType.singleChoice
      ∨ q.question_type = QuestionType.multipleChoice)
    (hcheck : q.check_answer submitted = true) :
    (List.lookup (PyKey.int question_id)
        (TestAttempt.submit_answer t a question_id submitted).scores = some q.max_points)
    ∧ 100 < (runOps demoHiddenTest demoAttempt
        [AttemptOp.start 0, AttemptOp.submit 2 ["b"], AttemptOp.finish 60]).percentage := by
  refine ⟨(submit_answer_records_score t a question_id submitted q hfind htype).1 hcheck, ?_⟩
  have hmax : demoHiddenTest.get_max_score = 1 := by
    have h : demoHiddenTest.get_active_questions
        = [Question.mk' 1 "small" .singleChoice ["a"] ["a"] 1] := by decide
    rw [Test.get_max_score, h]
    norm_num [Question.mk', List.sum_cons, List.sum_nil]
  have hsc : (TestAttempt.submit_answer demoHiddenTest
      (TestAttempt.start_attempt 0 demoAttempt) 2 ["b"]).scores
      = [(PyKey.int 2, 5)] := by decide
  simp only [runOps, applyOp, TestAttempt.finish_attempt, TestAttempt.calculate_score]
  simp only [hsc, hmax, dictValuesSum]
  norm_num

/-- C10 witness: the deactivated 5-point question of the demo test, answered
correctly, records its full 5 points. -/
theorem C10_inactive_question_still_scored_witness :
    List.lookup (PyKey.int 2)
      (TestAttempt.submit_answer demoHiddenTest demoAttempt 2 ["b"]).scores
      = some demoHidden.max_points :=
  (C10_inactive_question_still_scored demoHiddenTest demoAttempt 2 ["b"] demoHidden
    (by decide) (Or.inl rfl) (by decide)).1

end OOP2N
